import Mathlib

/-
Verification of the channel-bridging core described by include/asterisk/bridging.h.
The repository provides only the API header (type definitions, enum layouts and
documented declarations); the function bodies live in a bridging.c that is not
part of this tree.  Data types are embedded directly from the header.  Operations
are modelled from the specification text, as noted on each definition.
-/

namespace Bridging

/-- State information about a bridged channel, from enum ast_bridge_channel_state
(bridging.h lines 92-99): WAIT = 0, then END, HANGUP. -/
inductive AstBridgeChannelState where
  | WAIT
  | END
  | HANGUP
  deriving DecidableEq

/-- Numeric value of each ast_bridge_channel_state enumerator as assigned by C
(implicit sequential numbering from 0). -/
def channelStateValue : AstBridgeChannelState → Nat
  | .WAIT => 0
  | .END => 1
  | .HANGUP => 2

/-- Bridge action types, from enum ast_bridge_action_type (bridging.h lines
209-235).  The members after the RUN_APP comment block are the deferred actions
that must never be put onto a bridge_channel wr_queue. -/
inductive AstBridgeActionType where
  | FEATURE
  | INTERVAL
  | DTMF_STREAM
  | TALKING_START
  | TALKING_STOP
  | PLAY_FILE
  | RUN_APP
  | DEFERRED_TECH_DESTROY
  | DEFERRED_DISSOLVING
  deriving DecidableEq

/-- Numeric value of each ast_bridge_action_type enumerator as assigned by C:
implicit sequential numbering from 0 up to RUN_APP = 6, then the explicit
assignment AST_BRIDGE_ACTION_DEFERRED_TECH_DESTROY = 1000 and the implicit
increment DEFERRED_DISSOLVING = 1001. -/
def actionTypeValue : AstBridgeActionType → Nat
  | .FEATURE => 0
  | .INTERVAL => 1
  | .DTMF_STREAM => 2
  | .TALKING_START => 3
  | .TALKING_STOP => 4
  | .PLAY_FILE => 5
  | .RUN_APP => 6
  | .DEFERRED_TECH_DESTROY => 1000
  | .DEFERRED_DISSOLVING => 1001

/-- An action is bridge-queue-only when it is one of the two deferred actions
placed after the warning comment in enum ast_bridge_action_type: such actions
own resources that must be freed and may never be queued on a per-participant
wr_queue. -/
def isBridgeOnlyAction : AstBridgeActionType → Bool
  | .DEFERRED_TECH_DESTROY => true
  | .DEFERRED_DISSOLVING => true
  | _ => false

/-- Participant record, embedding the fields of struct ast_bridge_channel
(bridging.h lines 132-207) that the bridging-core claims depend on:
the wrapped channel identity (chan), the state machine (state), and the
suspended and depart_wait membership flags.  The condition variable used to
wake the owning thread is represented by a wake counter: each signal of the
condition increments it. -/
structure AstBridgeChannel where
  chan : Nat
  state : AstBridgeChannelState
  suspended : Bool
  depart_wait : Bool
  wake_count : Nat
  deriving DecidableEq

/-- Modelled from the spec: the body of ast_bridge_change_state is not in this
tree (only its declaration, bridging.h lines 930-950).  Spec section 4.3:
change_state "sets the new state only if still WAIT, skips otherwise
(idempotent against double-termination), and always wakes the owning thread".
The wake is modelled by incrementing the record's wake counter. -/
def ast_bridge_change_state (bridge_channel : AstBridgeChannel)
    (new_state : AstBridgeChannelState) : AstBridgeChannel :=
  if bridge_channel.state = .WAIT then
    { bridge_channel with
      state := new_state
      wake_count := bridge_channel.wake_count + 1 }
  else
    { bridge_channel with wake_count := bridge_channel.wake_count + 1 }

/-- Video distribution modes, from enum ast_bridge_video_mode_type
(bridging.h lines 237-245). -/
inductive AstBridgeVideoModeType where
  | NONE
  | SINGLE_SRC
  | TALKER_SRC
  deriving DecidableEq

/-- struct ast_bridge_video_single_src_data (bridging.h lines 249-252): the
channel whose video alone is accepted.  A channel pointer is modelled as an
optional channel identity. -/
structure AstBridgeVideoSingleSrcData where
  chan_vsrc : Option Nat
  deriving DecidableEq

/-- struct ast_bridge_video_talker_src_data (bridging.h lines 256-263):
current video source, its rolling talking energy, and the previous ("old")
source retained for the switch-over transition. -/
structure AstBridgeVideoTalkerSrcData where
  chan_vsrc : Option Nat
  average_talking_energy : Int
  chan_old_vsrc : Option Nat
  deriving DecidableEq

/-- struct ast_bridge_video_mode (bridging.h lines 265-272).  The C union of
the two mode payloads is embedded as both payloads present; only the one
selected by the mode field is meaningful. -/
structure AstBridgeVideoMode where
  mode : AstBridgeVideoModeType
  single_src_data : AstBridgeVideoSingleSrcData
  talker_src_data : AstBridgeVideoTalkerSrcData
  deriving DecidableEq

/-- Bridge aggregate, embedding the fields of struct ast_bridge (bridging.h
lines 390-431) that the bridging-core claims depend on: the ordered
participant list (channels), the video mode, the participant counters
num_channels and num_active, the merge-inhibit counter inhibit_merge, and the
sticky dissolved flag. -/
structure AstBridge where
  channels : List AstBridgeChannel
  video_mode : AstBridgeVideoMode
  num_channels : Nat
  num_active : Nat
  inhibit_merge : Nat
  dissolved : Bool
  deriving DecidableEq

/-- Find the participant record wrapping channel c (first match in join
order), as the C code walks the bridge's channels list comparing the chan
pointer. -/
def bridgeFind (b : AstBridge) (c : Nat) : Option AstBridgeChannel :=
  b.channels.find? (fun r => r.chan == c)

/-- Remove the first participant record wrapping channel c from the list,
mirroring AST_LIST_REMOVE on the bridge's channels list. -/
def removeChan : List AstBridgeChannel → Nat → List AstBridgeChannel
  | [], _ => []
  | r :: rest, c => if r.chan == c then rest else r :: removeChan rest c

/-- Set the suspended flag of the first participant record wrapping channel c. -/
def setSuspended : List AstBridgeChannel → Nat → Bool → List AstBridgeChannel
  | [], _, _ => []
  | r :: rest, c, v =>
    if r.chan == c then { r with suspended := v } :: rest
    else r :: setSuspended rest c v

/-- A participant counts toward num_active when it is not suspended. -/
def isActive (r : AstBridgeChannel) : Bool :=
  !r.suspended

/-- Modelled from the spec: the participant-ejection step of the missing
bridging.c (used by remove, by dissolution and by a rejected join of a
dissolved bridge, spec sections 3 and 7(e)).  Removes the channel's record
from the participant list and maintains the two counters: num_channels drops
by one and num_active drops by one when the record was active.  A channel not
in the bridge leaves the bridge unchanged. -/
def eject (b : AstBridge) (c : Nat) : AstBridge :=
  match bridgeFind b c with
  | none => b
  | some r =>
    { b with
      channels := removeChan b.channels c
      num_channels := b.num_channels - 1
      num_active := if r.suspended then b.num_active else b.num_active - 1 }

/-- The freshly allocated participant record appended by a successful
admission: wrapping channel c, in initial state WAIT, not suspended, with the
depart_wait flag as requested and no wake signalled yet. -/
def freshRecord (c : Nat) (dw : Bool) : AstBridgeChannel :=
  { chan := c, state := .WAIT, suspended := false, depart_wait := dw
    wake_count := 0 }

/-- Modelled from the spec: the participant-admission step shared by
ast_bridge_join and ast_bridge_impart, whose bodies are not in this tree
(only declarations, bridging.h lines 611-696).  Spec sections 4.2 and 7:
a join attempt on a dissolved bridge is rejected immediately and the channel
is ejected if it was already inside (7(e)); the participant list never gains a
duplicate channel reference (section 3 invariant: a channel is wrapped by at
most one record); the technology can_push callback may decline the channel,
leaving it outside the bridge (7(b)); on acceptance the record is appended to
the participant list in join order, in state WAIT, counting as active.
depart_wait is set for channels that must later be reclaimed by
ast_bridge_depart.  Returns an Int status (0 success, -1 failure) and the
resulting bridge. -/
def bridge_add_channel (can_push : Nat → Bool) (b : AstBridge) (c : Nat)
    (dw : Bool) : Int × AstBridge :=
  if b.dissolved then
    (-1, eject b c)
  else if (bridgeFind b c).isSome then
    (-1, b)
  else if can_push c then
    (0,
      { b with
        channels := b.channels ++ [freshRecord c dw]
        num_channels := b.num_channels + 1
        num_active := b.num_active + 1 })
  else
    (-1, b)

/-- Modelled from the spec: membership effect of the blocking
ast_bridge_join entry (declaration bridging.h lines 611-645; body missing).
The joining thread becomes the owning thread, so the record is not
depart-able (spec section 4.2).  The wait loop that follows the successful
push is not modelled. -/
def ast_bridge_join (can_push : Nat → Bool) (b : AstBridge) (c : Nat) :
    Int × AstBridge :=
  bridge_add_channel can_push b c false

/-- Modelled from the spec: membership effect of the non-blocking
ast_bridge_impart entry (declaration bridging.h lines 647-696; body missing).
Spec section 4.2: when independent is false the spawned thread is joinable by
a later ast_bridge_depart, recorded in the depart_wait flag; when independent
is true the channel behaves exactly as a joined channel and must never be
departed. -/
def ast_bridge_impart (can_push : Nat → Bool) (b : AstBridge) (c : Nat)
    (independent : Bool) : Int × AstBridge :=
  bridge_add_channel can_push b c (!independent)

/-- Modelled from the spec: ast_bridge_depart (declaration bridging.h lines
698-719; body missing).  Spec section 4.2 and error taxonomy 7(c): depart
reclaims a channel imparted with independent = false (its record carries
depart_wait); departing a channel that is not a member, or whose record does
not carry depart_wait (join-added or independently imparted), fails. -/
def ast_bridge_depart (b : AstBridge) (c : Nat) : Int × AstBridge :=
  match bridgeFind b c with
  | none => (-1, b)
  | some r => if r.depart_wait then (0, eject b c) else (-1, b)

/-- Modelled from the spec: ast_bridge_remove (declaration bridging.h lines
721-743; body missing).  Spec section 4.2: requests that a member channel
exit and be hung up; valid for join-added and imparted channels alike;
removing a non-member is reported as failure (7(c)). -/
def ast_bridge_remove (b : AstBridge) (c : Nat) : Int × AstBridge :=
  if (bridgeFind b c).isSome then (0, eject b c) else (-1, b)

/-- Modelled from the spec: ast_bridge_suspend (declaration bridging.h lines
796-818; body missing).  Spec sections 3 and 4.2: temporarily hands control
of a still-member channel to the caller without removing it from the
participant list; the record stops counting toward num_active ("active" =
non-suspended, joined).  Suspending a non-member or an already-suspended
channel is a reported no-op. -/
def ast_bridge_suspend (b : AstBridge) (c : Nat) : Int × AstBridge :=
  match bridgeFind b c with
  | none => (-1, b)
  | some r =>
    if r.suspended then (-1, b)
    else
      (0,
        { b with
          channels := setSuspended b.channels c true
          num_active := b.num_active - 1 })

/-- Modelled from the spec: ast_bridge_unsuspend (declaration bridging.h
lines 820-841; body missing).  Returns control of a suspended member to the
bridge's normal frame delivery; the record counts as active again. -/
def ast_bridge_unsuspend (b : AstBridge) (c : Nat) : Int × AstBridge :=
  match bridgeFind b c with
  | none => (-1, b)
  | some r =>
    if r.suspended then
      (0,
        { b with
          channels := setSuspended b.channels c false
          num_active := b.num_active + 1 })
    else (-1, b)

/-- Modelled from the spec: bridge dissolution (glossary: "terminal bridge
state ejecting all participants and refusing new joins"; flag documented at
bridging.h lines 429-430).  Sets the sticky dissolved flag and ejects every
participant. -/
def bridge_dissolve (b : AstBridge) : AstBridge :=
  { b with
    channels := []
    num_channels := 0
    num_active := 0
    dissolved := true }

/-- The administrative operations of spec section 4.2 that act on a single
bridge, as an operation language for invariant claims. -/
inductive BridgeOp where
  | join (c : Nat)
  | impart (c : Nat) (independent : Bool)
  | remove (c : Nat)
  | depart (c : Nat)
  | suspend (c : Nat)
  | unsuspend (c : Nat)
  | dissolve
  deriving DecidableEq

/-- Apply one administrative operation to a bridge, discarding the status
code.  The technology's can_push acceptance decision is a parameter, as the
technology binding is a collaborator behind the spec's section 6 contract. -/
def applyOp (can_push : Nat → Bool) (b : AstBridge) : BridgeOp → AstBridge
  | .join c => (ast_bridge_join can_push b c).2
  | .impart c independent => (ast_bridge_impart can_push b c independent).2
  | .remove c => (ast_bridge_remove b c).2
  | .depart c => (ast_bridge_depart b c).2
  | .suspend c => (ast_bridge_suspend b c).2
  | .unsuspend c => (ast_bridge_unsuspend b c).2
  | .dissolve => bridge_dissolve b

/-- Apply a sequence of administrative operations in order. -/
def applyOps (can_push : Nat → Bool) (b : AstBridge) : List BridgeOp → AstBridge
  | [] => b
  | op :: rest => applyOps can_push (applyOp can_push b op) rest

/-- The structural invariant of struct ast_bridge from spec section 3:
num_channels counts the participant records, num_active counts the active
(non-suspended) ones, and the participant list never contains a duplicate
channel reference. -/
def BridgeInv (b : AstBridge) : Prop :=
  b.num_channels = b.channels.length ∧
  b.num_active = b.channels.countP isActive ∧
  (b.channels.map AstBridgeChannel.chan).Nodup

instance (b : AstBridge) : Decidable (BridgeInv b) := by
  unfold BridgeInv
  infer_instance

/-- Split a source bridge's participant list by the destination technology's
can_push decision, keeping relative order on both sides: accepted records in
join order, declined records in join order. -/
def mergeSplit (can_push : Nat → Bool) :
    List AstBridgeChannel → List AstBridgeChannel × List AstBridgeChannel
  | [] => ([], [])
  | r :: rest =>
    let p := mergeSplit can_push rest
    if can_push r.chan then (r :: p.1, p.2) else (p.1, r :: p.2)

/-- Modelled from the spec: ast_bridge_merge (declaration bridging.h lines
745-768; body missing).  Spec section 4.5: verifies neither bridge has a
non-zero merge-inhibit count, reporting failure (-1) otherwise with both
bridges untouched; then relocates every participant of src accepted by the
destination technology's can_push into dst, reinserted in dst's participant
list preserving relative join order; a declined participant is left in src
and the merge continues ("best-effort, report remainder"), the number of
participants remaining in src being the non-negative result. -/
def ast_bridge_merge (can_push : Nat → Bool) (dst src : AstBridge) :
    Int × AstBridge × AstBridge :=
  if 0 < dst.inhibit_merge ∨ 0 < src.inhibit_merge then
    (-1, dst, src)
  else
    let p := mergeSplit can_push src.channels
    (Int.ofNat p.2.length,
      { dst with
        channels := dst.channels ++ p.1
        num_channels := dst.num_channels + p.1.length
        num_active := dst.num_active + p.1.countP isActive },
      { src with
        channels := p.2
        num_channels := src.num_channels - p.1.length
        num_active := src.num_active - p.1.countP isActive })

/-- Modelled from the spec: ast_bridge_merge_inhibit (declaration bridging.h
lines 770-780; body missing).  Spec section 4.5: "merge_inhibit(bridge, ±n)
atomically adjusts a per-bridge counter"; the counter is an unsigned count of
active inhibit requests (bridging.h lines 413-419), so the adjusted value is
the non-negative part of counter + request. -/
def ast_bridge_merge_inhibit (b : AstBridge) (request : Int) : AstBridge :=
  { b with inhibit_merge := ((b.inhibit_merge : Int) + request).toNat }

/-- Outcome of a successful bridge destruction: whether the technology
binding's destroy callback ran and whether the aggregate was freed. -/
structure DestroyOutcome where
  tech_destroy_called : Bool
  freed : Bool
  deriving DecidableEq

/-- Modelled from the spec: ast_bridge_destroy (declaration bridging.h lines
583-599; body missing).  Spec section 4.1: "destroy(bridge): fails if the
bridge still has participants; otherwise releases technology-private
resources via the binding's destroy callback and frees the aggregate." -/
def ast_bridge_destroy (b : AstBridge) : Except Int DestroyOutcome :=
  if 0 < b.num_channels then Except.error (-1)
  else Except.ok { tech_destroy_called := true, freed := true }

/-- Modelled from the spec: ast_bridge_base_init (declaration bridging.h
lines 480-501; body missing).  Spec section 4.1: validates the requested
capability mask is satisfiable (the check collaborator decides), zero
initializes the counters; "Tolerates a null bridge argument (no-op, returns
null)"; returns null on failure. -/
def ast_bridge_base_init (check : Nat → Bool) (self : Option AstBridge)
    (capabilities : Nat) (flags : Nat) : Option AstBridge :=
  match self with
  | none => none
  | some b =>
    if check capabilities then
      some { b with num_channels := 0, num_active := 0, inhibit_merge := 0 }
    else none

/-- Modelled from the spec: ast_bridge_register (declaration bridging.h lines
433-462; body missing).  Spec section 4.1: "register(bridge): publishes the
bridge so channels may join; tolerates null."  Publication into the global
registry is outside the per-bridge state modelled here, so on a bridge the
call is the identity; a null argument yields the null error result. -/
def ast_bridge_register (bridge : Option AstBridge) : Option AstBridge :=
  bridge

/-- Modelled from the spec: ast_bridge_update_talker_src_video_mode
(declaration bridging.h line 1193; body missing).  Spec section 4.6: in
TALKER_SRC mode, feeding a new energy sample "may trigger a switch if that
channel's energy exceeds the current source's by the policy threshold (exact
threshold is a tunable constant)", and the previous source is retained as
"old" for the switch-over; the tunable threshold is an explicit parameter.
The keyframe flag accompanies the sample (parameter name as in the header).
In any other mode the call leaves the bridge unchanged. -/
def ast_bridge_update_talker_src_video_mode (threshold : Int) (b : AstBridge)
    (chan : Nat) (talker_energy : Int) (is_keyfame : Bool) : AstBridge :=
  if b.video_mode.mode = .TALKER_SRC then
    if b.video_mode.talker_src_data.average_talking_energy + threshold
        < talker_energy then
      { b with
        video_mode :=
          { b.video_mode with
            talker_src_data :=
              { chan_vsrc := some chan
                average_talking_energy := talker_energy
                chan_old_vsrc := b.video_mode.talker_src_data.chan_vsrc } } }
    else b
  else b

/-- Modelled from the spec: ast_bridge_is_video_src (declaration bridging.h
lines 1200-1208; body missing).  Returns a 1-based priority (1 = primary
source) when the channel is a current video source of the bridge and 0
otherwise; in SINGLE_SRC and TALKER_SRC modes the pinned respectively
currently elected channel is the single current source (spec section 4.6:
at most 1 source is active in these modes by construction). -/
def ast_bridge_is_video_src (b : AstBridge) (chan : Nat) : Nat :=
  match b.video_mode.mode with
  | .NONE => 0
  | .SINGLE_SRC =>
    if b.video_mode.single_src_data.chan_vsrc = some chan then 1 else 0
  | .TALKER_SRC =>
    if b.video_mode.talker_src_data.chan_vsrc = some chan then 1 else 0

/-- Modelled from the spec: ast_bridge_number_video_src (declaration
bridging.h lines 1195-1198; body missing).  Spec section 4.6: "reports how
many sources are simultaneously active (at most 1 in SINGLE_SRC/TALKER_SRC,
by construction)". -/
def ast_bridge_number_video_src (b : AstBridge) : Nat :=
  match b.video_mode.mode with
  | .NONE => 0
  | .SINGLE_SRC => if b.video_mode.single_src_data.chan_vsrc.isSome then 1 else 0
  | .TALKER_SRC => if b.video_mode.talker_src_data.chan_vsrc.isSome then 1 else 0

/-- A video mode record with no source elected, as zero-initialized at bridge
construction. -/
def initVideoMode (m : AstBridgeVideoModeType) : AstBridgeVideoMode :=
  { mode := m
    single_src_data := { chan_vsrc := none }
    talker_src_data :=
      { chan_vsrc := none, average_talking_energy := 0, chan_old_vsrc := none } }

/-- A freshly constructed, empty, registered bridge. -/
def emptyBridge : AstBridge :=
  { channels := []
    video_mode := initVideoMode .NONE
    num_channels := 0
    num_active := 0
    inhibit_merge := 0
    dissolved := false }

/-- A bridge in TALKER_SRC video mode with no source elected yet. -/
def talkerBridge : AstBridge :=
  { emptyBridge with video_mode := initVideoMode .TALKER_SRC }

/-- The spec scenario's sequence of talker updates: channels 1, 2, 3 feed
energies 10, 50, 30 in that order. -/
def talkerScenario (threshold : Int) (kf1 kf2 kf3 : Bool) : AstBridge :=
  ast_bridge_update_talker_src_video_mode threshold
    (ast_bridge_update_talker_src_video_mode threshold
      (ast_bridge_update_talker_src_video_mode threshold talkerBridge 1 10 kf1)
      2 50 kf2)
    3 30 kf3

/-- A one-participant bridge X = [x1] with x1 the record of channel 1. -/
def bridgeX : AstBridge :=
  { emptyBridge with
    channels := [freshRecord 1 false]
    num_channels := 1
    num_active := 1 }

/-- A two-participant bridge Y = [y1, y2] with records of channels 2 and 3. -/
def bridgeY : AstBridge :=
  { emptyBridge with
    channels := [freshRecord 2 false, freshRecord 3 false]
    num_channels := 2
    num_active := 2 }

/-- An empty bridge carrying one active merge-inhibit request. -/
def bridgeInhibited : AstBridge :=
  { emptyBridge with inhibit_merge := 1 }

/-- A dissolved bridge still carrying the record of channel 9. -/
def dissolvedBridge : AstBridge :=
  { emptyBridge with
    channels := [freshRecord 9 false]
    num_channels := 1
    num_active := 1
    dissolved := true }

/-! Helper lemmas about the list manipulations. -/

lemma removeChan_sublist (l : List AstBridgeChannel) (c : Nat) :
    List.Sublist (removeChan l c) l := by
  induction l with
  | nil => simp [removeChan]
  | cons r rest ih =>
    by_cases h : (r.chan == c) = true
    · simpa [removeChan, h] using List.sublist_cons_self r rest
    · simpa [removeChan, h] using ih.cons₂ r

lemma length_removeChan (l : List AstBridgeChannel) (c : Nat)
    (r : AstBridgeChannel) (h : l.find? (fun x => x.chan == c) = some r) :
    l.length = (removeChan l c).length + 1 := by
  induction l with
  | nil => simp at h
  | cons x rest ih =>
    by_cases hx : (x.chan == c) = true
    · simp [removeChan, hx]
    · rw [List.find?_cons_of_neg _ (by simp [hx])] at h
      simp only [removeChan, hx, if_neg, List.length_cons, Bool.false_eq_true,
        ite_false]
      rw [ih h]

lemma countP_removeChan (q : AstBridgeChannel → Bool) (l : List AstBridgeChannel)
    (c : Nat) (r : AstBridgeChannel)
    (h : l.find? (fun x => x.chan == c) = some r) :
    l.countP q = (removeChan l c).countP q + (if q r then 1 else 0) := by
  induction l with
  | nil => simp at h
  | cons x rest ih =>
    by_cases hx : (x.chan == c) = true
    · rw [List.find?_cons_of_pos _ (by simp [hx])] at h
      cases h
      simp only [removeChan, hx, ite_true]
      exact List.countP_cons _ _ _
    · rw [List.find?_cons_of_neg _ (by simp [hx])] at h
      simp only [removeChan, hx, Bool.false_eq_true, ite_false, List.countP_cons]
      rw [ih h]
      omega

lemma nodup_removeChan (l : List AstBridgeChannel) (c : Nat)
    (h : (l.map AstBridgeChannel.chan).Nodup) :
    ((removeChan l c).map AstBridgeChannel.chan).Nodup :=
  List.Nodup.sublist ((removeChan_sublist l c).map AstBridgeChannel.chan) h

lemma find?_eq_none_of_not_mem (l : List AstBridgeChannel) (c : Nat)
    (h : c ∉ l.map AstBridgeChannel.chan) :
    l.find? (fun x => x.chan == c) = none := by
  rw [List.find?_eq_none]
  intro x hx
  simp only [beq_iff_eq]
  intro hc
  exact h (List.mem_map.mpr ⟨x, hx, hc⟩)

lemma not_mem_of_find?_eq_none (l : List AstBridgeChannel) (c : Nat)
    (h : l.find? (fun x => x.chan == c) = none) :
    c ∉ l.map AstBridgeChannel.chan := by
  intro hc
  obtain ⟨x, hx, hxc⟩ := List.mem_map.mp hc
  rw [List.find?_eq_none] at h
  exact h x hx (by simp [hxc])

lemma find?_removeChan_eq_none (l : List AstBridgeChannel) (c : Nat)
    (h : (l.map AstBridgeChannel.chan).Nodup) :
    (removeChan l c).find? (fun x => x.chan == c) = none := by
  induction l with
  | nil => simp [removeChan]
  | cons x rest ih =>
    rw [List.map_cons, List.nodup_cons] at h
    by_cases hx : (x.chan == c) = true
    · simp only [removeChan, hx, ite_true]
      apply find?_eq_none_of_not_mem
      have hxc : x.chan = c := by simpa using hx
      rw [← hxc]
      exact h.1
    · simp only [removeChan, hx, Bool.false_eq_true, ite_false]
      rw [List.find?_cons_of_neg _ (by simp [hx])]
      exact ih h.2

lemma map_chan_setSuspended (l : List AstBridgeChannel) (c : Nat) (v : Bool) :
    (setSuspended l c v).map AstBridgeChannel.chan =
      l.map AstBridgeChannel.chan := by
  induction l with
  | nil => rfl
  | cons x rest ih =>
    by_cases hx : (x.chan == c) = true
    · simp [setSuspended, hx]
    · simp [setSuspended, hx, ih]

lemma length_setSuspended (l : List AstBridgeChannel) (c : Nat) (v : Bool) :
    (setSuspended l c v).length = l.length := by
  have h := congrArg List.length (map_chan_setSuspended l c v)
  simpa using h

lemma countP_setSuspended_suspend (l : List AstBridgeChannel) (c : Nat)
    (r : AstBridgeChannel) (hfind : l.find? (fun x => x.chan == c) = some r)
    (hr : r.suspended = false) :
    l.countP isActive = (setSuspended l c true).countP isActive + 1 := by
  induction l with
  | nil => simp at hfind
  | cons x rest ih =>
    by_cases hx : (x.chan == c) = true
    · rw [List.find?_cons_of_pos _ (by simp [hx])] at hfind
      cases hfind
      simp [setSuspended, hx, List.countP_cons, isActive, hr]
    · rw [List.find?_cons_of_neg _ (by simp [hx])] at hfind
      simp only [setSuspended, hx, Bool.false_eq_true, ite_false,
        List.countP_cons]
      rw [ih hfind]
      omega

lemma countP_setSuspended_unsuspend (l : List AstBridgeChannel) (c : Nat)
    (r : AstBridgeChannel) (hfind : l.find? (fun x => x.chan == c) = some r)
    (hr : r.suspended = true) :
    (setSuspended l c false).countP isActive = l.countP isActive + 1 := by
  induction l with
  | nil => simp at hfind
  | cons x rest ih =>
    by_cases hx : (x.chan == c) = true
    · rw [List.find?_cons_of_pos _ (by simp [hx])] at hfind
      cases hfind
      simp [setSuspended, hx, List.countP_cons, isActive, hr]
    · rw [List.find?_cons_of_neg _ (by simp [hx])] at hfind
      simp only [setSuspended, hx, Bool.false_eq_true, ite_false,
        List.countP_cons]
      rw [ih hfind]
      omega

/-! Preservation of the bridge structural invariant by each operation. -/

lemma eject_dissolved (b : AstBridge) (c : Nat) :
    (eject b c).dissolved = b.dissolved := by
  unfold eject
  cases bridgeFind b c <;> rfl

lemma bridgeInv_eject (b : AstBridge) (c : Nat) (h : BridgeInv b) :
    BridgeInv (eject b c) := by
  obtain ⟨h1, h2, h3⟩ := h
  cases hf : bridgeFind b c with
  | none =>
    simp only [eject, hf]
    exact ⟨h1, h2, h3⟩
  | some r =>
    have hf2 : b.channels.find? (fun x => x.chan == c) = some r := hf
    have hl := length_removeChan b.channels c r hf2
    have hc := countP_removeChan isActive b.channels c r hf2
    simp only [eject, hf]
    refine ⟨?_, ?_, nodup_removeChan b.channels c h3⟩
    · dsimp only
      omega
    · dsimp only
      by_cases hs : r.suspended = true
      · rw [if_pos hs]
        rw [if_neg (by simp [isActive, hs])] at hc
        omega
      · rw [if_neg hs]
        rw [if_pos (by simp [isActive, hs])] at hc
        omega

lemma bridgeInv_add (f : Nat → Bool) (b : AstBridge) (c : Nat) (dw : Bool)
    (h : BridgeInv b) : BridgeInv (bridge_add_channel f b c dw).2 := by
  obtain ⟨h1, h2, h3⟩ := h
  unfold bridge_add_channel
  by_cases hd : b.dissolved = true
  · simpa [hd] using bridgeInv_eject b c ⟨h1, h2, h3⟩
  · simp only [hd, ite_false]
    by_cases hm : (bridgeFind b c).isSome
    · simp only [hm, ite_true]
      exact ⟨h1, h2, h3⟩
    · simp only [hm, Bool.false_eq_true, ite_false]
      by_cases hp : f c = true
      · simp only [hp, ite_true]
        refine ⟨?_, ?_, ?_⟩
        · simp [h1]
        · simp [h2, List.countP_append, isActive, freshRecord]
        · rw [List.map_append, List.nodup_append]
          refine ⟨h3, by simp, ?_⟩
          intro a ha hb
          simp only [List.map_cons, List.map_nil, List.mem_cons,
            List.not_mem_nil, or_false] at hb
          rw [hb] at ha
          have hnone : bridgeFind b c = none := by
            cases hfind : bridgeFind b c
            · rfl
            · rw [hfind] at hm
              simp at hm
          exact not_mem_of_find?_eq_none b.channels c hnone ha
      · simp only [hp, Bool.false_eq_true, ite_false]
        exact ⟨h1, h2, h3⟩

lemma bridgeInv_suspend (b : AstBridge) (c : Nat) (h : BridgeInv b) :
    BridgeInv (ast_bridge_suspend b c).2 := by
  obtain ⟨h1, h2, h3⟩ := h
  unfold ast_bridge_suspend
  cases hf : bridgeFind b c with
  | none => exact ⟨h1, h2, h3⟩
  | some r =>
    simp only [bridgeFind] at hf
    by_cases hs : r.suspended = true
    · simp only [hs, ite_true]
      exact ⟨h1, h2, h3⟩
    · simp only [hs, Bool.false_eq_true, ite_false]
      refine ⟨?_, ?_, ?_⟩
      · simp [h1, length_setSuspended]
      · have hc := countP_setSuspended_suspend b.channels c r hf
          (by simpa using hs)
        simp only []
        omega
      · simpa [map_chan_setSuspended] using h3

lemma bridgeInv_unsuspend (b : AstBridge) (c : Nat) (h : BridgeInv b) :
    BridgeInv (ast_bridge_unsuspend b c).2 := by
  obtain ⟨h1, h2, h3⟩ := h
  unfold ast_bridge_unsuspend
  cases hf : bridgeFind b c with
  | none => exact ⟨h1, h2, h3⟩
  | some r =>
    simp only [bridgeFind] at hf
    by_cases hs : r.suspended = true
    · simp only [hs, ite_true]
      refine ⟨?_, ?_, ?_⟩
      · simp [h1, length_setSuspended]
      · have hc := countP_setSuspended_unsuspend b.channels c r hf hs
        simp only []
        omega
      · simpa [map_chan_setSuspended] using h3
    · simp only [hs, Bool.false_eq_true, ite_false]
      exact ⟨h1, h2, h3⟩

lemma bridgeInv_applyOp (f : Nat → Bool) (b : AstBridge) (op : BridgeOp)
    (h : BridgeInv b) : BridgeInv (applyOp f b op) := by
  cases op with
  | join c => exact bridgeInv_add f b c false h
  | impart c independent => exact bridgeInv_add f b c (!independent) h
  | remove c =>
    simp only [applyOp, ast_bridge_remove]
    by_cases hm : (bridgeFind b c).isSome <;>
      simp only [hm, Bool.false_eq_true, ite_true, ite_false]
    · exact bridgeInv_eject b c h
    · exact h
  | depart c =>
    simp only [applyOp, ast_bridge_depart]
    cases hf : bridgeFind b c with
    | none => exact h
    | some r =>
      by_cases hw : r.depart_wait = true <;>
        simp only [hw, Bool.false_eq_true, ite_true, ite_false]
      · exact bridgeInv_eject b c h
      · exact h
  | suspend c => exact bridgeInv_suspend b c h
  | unsuspend c => exact bridgeInv_unsuspend b c h
  | dissolve =>
    refine ⟨rfl, rfl, ?_⟩
    simp [bridge_dissolve, applyOp]

lemma bridgeInv_applyOps (f : Nat → Bool) (b : AstBridge) (ops : List BridgeOp)
    (h : BridgeInv b) : BridgeInv (applyOps f b ops) := by
  induction ops generalizing b with
  | nil => exact h
  | cons op rest ih => exact ih (applyOp f b op) (bridgeInv_applyOp f b op h)

/-! Lemmas about merge, admission success, and dissolution stickiness. -/

lemma mergeSplit_all_accepted (f : Nat → Bool) (l : List AstBridgeChannel)
    (h : ∀ r ∈ l, f r.chan = true) : mergeSplit f l = (l, []) := by
  induction l with
  | nil => rfl
  | cons r rest ih =>
    simp only [mergeSplit]
    rw [ih (fun x hx => h x (List.mem_cons_of_mem r hx))]
    simp [h r (List.mem_cons_self r rest)]

lemma find?_append_left_none (l1 l2 : List AstBridgeChannel)
    (p : AstBridgeChannel → Bool) (h : l1.find? p = none) :
    (l1 ++ l2).find? p = l2.find? p := by
  rw [List.find?_append, h]
  rfl

lemma bridge_add_channel_success (f : Nat → Bool) (b : AstBridge) (c : Nat)
    (dw : Bool) (hs : (bridge_add_channel f b c dw).1 = 0) :
    b.dissolved = false ∧ bridgeFind b c = none ∧ f c = true ∧
    (bridge_add_channel f b c dw).2 =
      { b with
        channels := b.channels ++ [freshRecord c dw]
        num_channels := b.num_channels + 1
        num_active := b.num_active + 1 } := by
  unfold bridge_add_channel at hs ⊢
  by_cases hd : b.dissolved = true
  · simp [hd] at hs
  · simp only [hd, ite_false] at hs ⊢
    by_cases hm : (bridgeFind b c).isSome
    · simp [hm] at hs
    · simp only [hm, Bool.false_eq_true, ite_false] at hs ⊢
      by_cases hp : f c = true
      · simp only [hp, ite_true]
        refine ⟨by simpa using hd, ?_, by simp [hp], by simp⟩
        cases hfind : bridgeFind b c
        · rfl
        · rw [hfind] at hm
          simp at hm
      · simp [hp] at hs

lemma bridge_add_channel_success_find (f : Nat → Bool) (b : AstBridge)
    (c : Nat) (dw : Bool) (hs : (bridge_add_channel f b c dw).1 = 0) :
    bridgeFind (bridge_add_channel f b c dw).2 c = some (freshRecord c dw) := by
  obtain ⟨hd, hnone, hp, hres⟩ := bridge_add_channel_success f b c dw hs
  rw [hres]
  simp only [bridgeFind]
  rw [find?_append_left_none _ _ _ hnone]
  simp [freshRecord]

lemma eject_num_channels_le (b : AstBridge) (c : Nat) :
    (eject b c).num_channels ≤ b.num_channels := by
  cases hf : bridgeFind b c
  · simp [eject, hf]
  · simp [eject, hf]

lemma eject_not_member (b : AstBridge) (c : Nat)
    (h3 : (b.channels.map AstBridgeChannel.chan).Nodup) :
    bridgeFind (eject b c) c = none := by
  cases hf : bridgeFind b c with
  | none =>
    simp only [eject, hf]
  | some r =>
    have hch : (eject b c).channels = removeChan b.channels c := by
      simp [eject, hf]
    simp only [bridgeFind, hch]
    exact find?_removeChan_eq_none b.channels c h3

lemma applyOp_dissolved (f : Nat → Bool) (b : AstBridge) (op : BridgeOp)
    (h : b.dissolved = true) : (applyOp f b op).dissolved = true := by
  cases op with
  | join c =>
    simp [applyOp, ast_bridge_join, bridge_add_channel, h, eject_dissolved]
  | impart c independent =>
    simp [applyOp, ast_bridge_impart, bridge_add_channel, h, eject_dissolved]
  | remove c =>
    simp only [applyOp, ast_bridge_remove]
    by_cases hm : (bridgeFind b c).isSome <;>
      simp [hm, eject_dissolved, h]
  | depart c =>
    simp only [applyOp, ast_bridge_depart]
    cases hf : bridgeFind b c with
    | none => exact h
    | some r =>
      by_cases hw : r.depart_wait = true <;>
        simp [hw, eject_dissolved, h]
  | suspend c =>
    simp only [applyOp, ast_bridge_suspend]
    cases hf : bridgeFind b c with
    | none => exact h
    | some r =>
      by_cases hw : r.suspended = true <;> simp [hw, h]
  | unsuspend c =>
    simp only [applyOp, ast_bridge_unsuspend]
    cases hf : bridgeFind b c with
    | none => exact h
    | some r =>
      by_cases hw : r.suspended = true <;> simp [hw, h]
  | dissolve => rfl

lemma applyOps_dissolved (f : Nat → Bool) (b : AstBridge) (ops : List BridgeOp)
    (h : b.dissolved = true) : (applyOps f b ops).dissolved = true := by
  induction ops generalizing b with
  | nil => exact h
  | cons op rest ih =>
    exact ih (applyOp f b op) (applyOp_dissolved f b op h)

/-! Lemmas about the video-source arbiter. -/

lemma update_talker_switch (b : AstBridge) (t e : Int) (c : Nat) (kf : Bool)
    (hmode : b.video_mode.mode = .TALKER_SRC)
    (h : b.video_mode.talker_src_data.average_talking_energy + t < e) :
    ast_bridge_update_talker_src_video_mode t b c e kf =
      { b with
        video_mode :=
          { b.video_mode with
            talker_src_data :=
              { chan_vsrc := some c
                average_talking_energy := e
                chan_old_vsrc := b.video_mode.talker_src_data.chan_vsrc } } } := by
  unfold ast_bridge_update_talker_src_video_mode
  rw [if_pos hmode, if_pos h]

lemma update_talker_noswitch (b : AstBridge) (t e : Int) (c : Nat) (kf : Bool)
    (h : ¬(b.video_mode.talker_src_data.average_talking_energy + t < e)) :
    ast_bridge_update_talker_src_video_mode t b c e kf = b := by
  unfold ast_bridge_update_talker_src_video_mode
  by_cases hmode : b.video_mode.mode = .TALKER_SRC
  · rw [if_pos hmode, if_neg h]
  · rw [if_neg hmode]

lemma is_video_src_talker (b : AstBridge) (c : Nat)
    (hm : b.video_mode.mode = .TALKER_SRC)
    (hv : b.video_mode.talker_src_data.chan_vsrc = some c) :
    ast_bridge_is_video_src b c = 1 ∧
    (∀ d, d ≠ c → ast_bridge_is_video_src b d = 0) ∧
    ast_bridge_number_video_src b = 1 := by
  refine ⟨?_, ?_, ?_⟩
  · simp [ast_bridge_is_video_src, hm, hv]
  · intro d hd
    simp only [ast_bridge_is_video_src, hm, hv]
    rw [if_neg (by simpa using fun he => hd he.symm)]
  · simp [ast_bridge_number_video_src, hm, hv]

lemma number_video_src_le_one (b : AstBridge)
    (hb : b.video_mode.mode = .SINGLE_SRC ∨ b.video_mode.mode = .TALKER_SRC) :
    ast_bridge_number_video_src b ≤ 1 := by
  rcases hb with hm | hm <;> simp only [ast_bridge_number_video_src, hm] <;>
    split <;> simp

/-! The claims. -/

/-- C10: every action type that may be queued on a per-participant wr_queue
(FEATURE through RUN_APP) has an enum value below 1000, the two bridge-only
deferred action types have the values 1000 and 1001, the ranges are disjoint,
and whether an action kind is bridge-only is decidable from its numeric tag
alone. -/
theorem action_type_bridge_only_range (a : AstBridgeActionType) :
    (isBridgeOnlyAction a = false → actionTypeValue a < 1000) ∧
    (isBridgeOnlyAction a = true →
      actionTypeValue a = 1000 ∨ actionTypeValue a = 1001) ∧
    actionTypeValue AstBridgeActionType.DEFERRED_TECH_DESTROY = 1000 ∧
    actionTypeValue AstBridgeActionType.DEFERRED_DISSOLVING = 1001 ∧
    isBridgeOnlyAction a = decide (1000 ≤ actionTypeValue a) := by
  cases a <;> simp [actionTypeValue, isBridgeOnlyAction]

/-- Witness for C10 at concrete action types. -/
theorem action_type_bridge_only_range_witness :
    actionTypeValue AstBridgeActionType.RUN_APP < 1000 ∧
    (actionTypeValue AstBridgeActionType.DEFERRED_DISSOLVING = 1000 ∨
      actionTypeValue AstBridgeActionType.DEFERRED_DISSOLVING = 1001) :=
  ⟨(action_type_bridge_only_range .RUN_APP).1 (by decide),
    (action_type_bridge_only_range .DEFERRED_DISSOLVING).2.1 (by decide)⟩

/-- C2: change_state sets the requested state only when the current state is
WAIT, is a no-op on the state otherwise, always wakes the owning thread; a
non-WAIT state never returns to WAIT, and a second change_state call after a
successful WAIT-to-non-WAIT transition leaves the state unchanged. -/
theorem ast_bridge_change_state_spec (bc : AstBridgeChannel)
    (s1 s2 : AstBridgeChannelState) :
    (bc.state = .WAIT → (ast_bridge_change_state bc s1).state = s1) ∧
    (bc.state ≠ .WAIT → (ast_bridge_change_state bc s1).state = bc.state) ∧
    (ast_bridge_change_state bc s1).wake_count = bc.wake_count + 1 ∧
    (bc.state ≠ .WAIT → (ast_bridge_change_state bc s1).state ≠ .WAIT) ∧
    (bc.state = .WAIT → s1 ≠ .WAIT →
      (ast_bridge_change_state (ast_bridge_change_state bc s1) s2).state = s1) := by
  by_cases h : bc.state = .WAIT
  · refine ⟨fun _ => by simp [ast_bridge_change_state, h],
      fun hne => absurd h hne,
      by simp [ast_bridge_change_state, h],
      fun hne => absurd h hne, ?_⟩
    intro _ hs1
    simp [ast_bridge_change_state, h, hs1]
  · refine ⟨fun hw => absurd hw h,
      fun _ => by simp [ast_bridge_change_state, h],
      by simp [ast_bridge_change_state, h],
      fun _ => by simp only [ast_bridge_change_state, if_neg h]; exact h,
      fun hw => absurd hw h⟩

/-- Witness for C2: a fresh WAIT record moved to END stays END after a second
change_state requesting HANGUP, and both calls wake the owner. -/
theorem ast_bridge_change_state_spec_witness :
    (freshRecord 7 false).state = .WAIT ∧
    (ast_bridge_change_state (freshRecord 7 false) .END).state = .END ∧
    (ast_bridge_change_state (freshRecord 7 false) .END).wake_count =
      (freshRecord 7 false).wake_count + 1 ∧
    (ast_bridge_change_state
      (ast_bridge_change_state (freshRecord 7 false) .END) .HANGUP).state =
      .END := by
  have h := ast_bridge_change_state_spec (freshRecord 7 false) .END .HANGUP
  exact ⟨rfl, h.1 rfl, h.2.2.1, h.2.2.2.2 rfl (by decide)⟩

/-- C9: ast_bridge_base_init on a null bridge is a no-op returning null,
ast_bridge_register tolerates null returning null, and a null produced at an
earlier step of a bridge-constructor chain propagates through both calls to a
null result. -/
theorem null_bridge_propagates (check : Nat → Bool)
    (capabilities flags : Nat) :
    ast_bridge_base_init check none capabilities flags = none ∧
    ast_bridge_register (none : Option AstBridge) = none ∧
    ast_bridge_register (ast_bridge_base_init check none capabilities flags) =
      none :=
  ⟨rfl, rfl, rfl⟩

/-- C1: when neither bridge inhibits merging and the destination technology
accepts every participant of src, ast_bridge_merge reports full success (zero
participants remaining), dst's participant list becomes its old list followed
by src's participants in their relative order, and src is left with zero
participants. -/
theorem ast_bridge_merge_full_success (can_push : Nat → Bool)
    (dst src : AstBridge)
    (hd : dst.inhibit_merge = 0) (hs : src.inhibit_merge = 0)
    (hall : ∀ r ∈ src.channels, can_push r.chan = true) :
    (ast_bridge_merge can_push dst src).1 = 0 ∧
    (ast_bridge_merge can_push dst src).2.1.channels =
      dst.channels ++ src.channels ∧
    (ast_bridge_merge can_push dst src).2.2.channels = [] ∧
    (src.num_channels = src.channels.length →
      (ast_bridge_merge can_push dst src).2.2.num_channels = 0) := by
  have hsplit := mergeSplit_all_accepted can_push src.channels hall
  simp only [ast_bridge_merge, hsplit]
  rw [if_neg (by omega)]
  refine ⟨rfl, rfl, rfl, fun h => ?_⟩
  dsimp only
  omega

/-- Witness for C1: merging the 2-participant bridge Y into the
1-participant bridge X yields X = [x1, y1, y2] and Y empty, when the
destination technology accepts everyone. -/
theorem ast_bridge_merge_full_success_witness :
    (ast_bridge_merge (fun _ => true) bridgeX bridgeY).1 = 0 ∧
    (ast_bridge_merge (fun _ => true) bridgeX bridgeY).2.1.channels =
      [freshRecord 1 false, freshRecord 2 false, freshRecord 3 false] ∧
    (ast_bridge_merge (fun _ => true) bridgeX bridgeY).2.2.channels = [] ∧
    (ast_bridge_merge (fun _ => true) bridgeX bridgeY).2.2.num_channels = 0 := by
  have h := ast_bridge_merge_full_success (fun _ => true) bridgeX bridgeY
    rfl rfl (by decide)
  refine ⟨h.1, ?_, h.2.2.1, h.2.2.2 rfl⟩
  rw [h.2.1]
  rfl

/-- C5: a positive merge-inhibit counter on either side makes
ast_bridge_merge report failure with both bridges (and so both participant
lists) unchanged; ast_bridge_merge_inhibit adjusts the per-bridge counter by
the request; and with both counters zero the merge is not blocked (its result
is the non-negative count of participants remaining). -/
theorem merge_inhibit_blocks_merge (can_push : Nat → Bool)
    (dst src b : AstBridge) (request : Int) :
    (0 < dst.inhibit_merge ∨ 0 < src.inhibit_merge →
      ast_bridge_merge can_push dst src = (-1, dst, src)) ∧
    (0 ≤ (b.inhibit_merge : Int) + request →
      ((ast_bridge_merge_inhibit b request).inhibit_merge : Int) =
        (b.inhibit_merge : Int) + request) ∧
    (dst.inhibit_merge = 0 → src.inhibit_merge = 0 →
      0 ≤ (ast_bridge_merge can_push dst src).1) := by
  refine ⟨fun h => ?_, fun h => ?_, fun h1 h2 => ?_⟩
  · simp only [ast_bridge_merge, if_pos h]
  · simp only [ast_bridge_merge_inhibit]
    exact Int.toNat_of_nonneg h
  · simp only [ast_bridge_merge]
    rw [if_neg (by omega)]
    exact Int.ofNat_nonneg _

/-- Witness for C5: a single inhibit request on X blocks a merge from the
empty bridge leaving both untouched; two inhibit requests on the empty bridge
raise its counter from 0 to 2; and a merge between two uninhibited bridges is
not blocked. -/
theorem merge_inhibit_blocks_merge_witness :
    ast_bridge_merge (fun _ => true) bridgeInhibited bridgeY =
      (-1, bridgeInhibited, bridgeY) ∧
    ((ast_bridge_merge_inhibit emptyBridge 2).inhibit_merge : Int) =
      (emptyBridge.inhibit_merge : Int) + 2 ∧
    0 ≤ (ast_bridge_merge (fun _ => true) bridgeX bridgeY).1 := by
  have h := merge_inhibit_blocks_merge (fun _ => true) bridgeInhibited bridgeY
    emptyBridge 2
  have h2 := merge_inhibit_blocks_merge (fun _ => true) bridgeX bridgeY
    emptyBridge 2
  exact ⟨h.1 (by decide), h.2.1 (by decide), h2.2.2 rfl rfl⟩

/-- C6: ast_bridge_destroy fails when the bridge still has participants, and
otherwise runs the technology binding's destroy callback and frees the
aggregate; in particular a bridge that just admitted a channel by a
successful join cannot be destroyed. -/
theorem ast_bridge_destroy_spec (b : AstBridge) (can_push : Nat → Bool)
    (c : Nat) :
    (0 < b.num_channels → ast_bridge_destroy b = Except.error (-1)) ∧
    (b.num_channels = 0 →
      ast_bridge_destroy b =
        Except.ok { tech_destroy_called := true, freed := true }) ∧
    ((ast_bridge_join can_push b c).1 = 0 →
      ast_bridge_destroy (ast_bridge_join can_push b c).2 =
        Except.error (-1)) := by
  refine ⟨fun h => ?_, fun h => ?_, fun h => ?_⟩
  · simp [ast_bridge_destroy, h]
  · simp [ast_bridge_destroy, h]
  · obtain ⟨hdiss, hnone, hp, hres⟩ :=
      bridge_add_channel_success can_push b c false h
    unfold ast_bridge_join
    rw [hres]
    simp [ast_bridge_destroy]

/-- Witness for C6 on concrete bridges: the one-participant bridge X cannot
be destroyed, the empty bridge can, and the empty bridge after a successful
join cannot. -/
theorem ast_bridge_destroy_spec_witness :
    ast_bridge_destroy bridgeX = Except.error (-1) ∧
    ast_bridge_destroy emptyBridge =
      Except.ok { tech_destroy_called := true, freed := true } ∧
    ast_bridge_destroy (ast_bridge_join (fun _ => true) emptyBridge 5).2 =
      Except.error (-1) := by
  have h := ast_bridge_destroy_spec bridgeX (fun _ => true) 5
  have h2 := ast_bridge_destroy_spec emptyBridge (fun _ => true) 5
  exact ⟨h.1 (by decide), h2.2.1 rfl, h2.2.2 (by decide)⟩

/-- C7: ast_bridge_depart succeeds on a channel admitted by
ast_bridge_impart with independent = false, and fails on a channel admitted
by ast_bridge_impart with independent = true or by ast_bridge_join. -/
theorem ast_bridge_depart_requires_reclaimable_impart (can_push : Nat → Bool)
    (b : AstBridge) (c : Nat) :
    ((ast_bridge_impart can_push b c false).1 = 0 →
      (ast_bridge_depart (ast_bridge_impart can_push b c false).2 c).1 = 0) ∧
    ((ast_bridge_impart can_push b c true).1 = 0 →
      (ast_bridge_depart (ast_bridge_impart can_push b c true).2 c).1 = -1) ∧
    ((ast_bridge_join can_push b c).1 = 0 →
      (ast_bridge_depart (ast_bridge_join can_push b c).2 c).1 = -1) := by
  refine ⟨fun h => ?_, fun h => ?_, fun h => ?_⟩
  · have hf := bridge_add_channel_success_find can_push b c (!false) h
    unfold ast_bridge_impart
    unfold ast_bridge_depart
    rw [hf]
    simp [freshRecord]
  · have hf := bridge_add_channel_success_find can_push b c (!true) h
    unfold ast_bridge_impart
    unfold ast_bridge_depart
    rw [hf]
    simp [freshRecord]
  · have hf := bridge_add_channel_success_find can_push b c false h
    unfold ast_bridge_join
    unfold ast_bridge_depart
    rw [hf]
    simp [freshRecord]

/-- Witness for C7 on the empty bridge and channel 4: depart succeeds after
a non-independent impart and fails after an independent impart or a join. -/
theorem ast_bridge_depart_requires_reclaimable_impart_witness :
    (ast_bridge_impart (fun _ => true) emptyBridge 4 false).1 = 0 ∧
    (ast_bridge_depart
      (ast_bridge_impart (fun _ => true) emptyBridge 4 false).2 4).1 = 0 ∧
    (ast_bridge_depart
      (ast_bridge_impart (fun _ => true) emptyBridge 4 true).2 4).1 = -1 ∧
    (ast_bridge_depart
      (ast_bridge_join (fun _ => true) emptyBridge 4).2 4).1 = -1 := by
  have h := ast_bridge_depart_requires_reclaimable_impart (fun _ => true)
    emptyBridge 4
  exact ⟨by decide, h.1 (by decide), h.2.1 (by decide), h.2.2 (by decide)⟩

/-- C8: in TALKER_SRC mode, after channels 1, 2, 3 feed talker energies 10,
50, 30 in sequence (any keyframe flags, any non-negative switch threshold
below the decisive 40-energy margin), the current video source is channel 2,
which sent energy 50; is_video_src returns priority 1 for it and 0 for the
two others; and number_video_src reports at most 1 active source in
SINGLE_SRC and TALKER_SRC modes, exactly 1 here. -/
theorem talker_src_video_scenario (threshold : Int) (kf1 kf2 kf3 : Bool)
    (h0 : 0 ≤ threshold) (h40 : threshold < 40) :
    (talkerScenario threshold kf1 kf2 kf3).video_mode.talker_src_data.chan_vsrc
      = some 2 ∧
    ast_bridge_is_video_src (talkerScenario threshold kf1 kf2 kf3) 2 = 1 ∧
    ast_bridge_is_video_src (talkerScenario threshold kf1 kf2 kf3) 1 = 0 ∧
    ast_bridge_is_video_src (talkerScenario threshold kf1 kf2 kf3) 3 = 0 ∧
    ast_bridge_number_video_src (talkerScenario threshold kf1 kf2 kf3) = 1 ∧
    (∀ b : AstBridge,
      b.video_mode.mode = .SINGLE_SRC ∨ b.video_mode.mode = .TALKER_SRC →
      ast_bridge_number_video_src b ≤ 1) := by
  have hvm : (talkerScenario threshold kf1 kf2 kf3).video_mode.mode =
        .TALKER_SRC ∧
      (talkerScenario threshold kf1 kf2 kf3).video_mode.talker_src_data.chan_vsrc
        = some 2 := by
    unfold talkerScenario
    by_cases h10 : threshold < 10
    · rw [update_talker_switch talkerBridge threshold 10 1 kf1 rfl
        (by show (0 : Int) + threshold < 10; omega)]
      rw [update_talker_switch _ threshold 50 2 kf2 rfl
        (by show (10 : Int) + threshold < 50; omega)]
      rw [update_talker_noswitch _ threshold 30 3 kf3
        (by show ¬((50 : Int) + threshold < 30); omega)]
      exact ⟨rfl, rfl⟩
    · rw [update_talker_noswitch talkerBridge threshold 10 1 kf1
        (by show ¬((0 : Int) + threshold < 10); omega)]
      rw [update_talker_switch talkerBridge threshold 50 2 kf2 rfl
        (by show (0 : Int) + threshold < 50; omega)]
      rw [update_talker_noswitch _ threshold 30 3 kf3
        (by show ¬((50 : Int) + threshold < 30); omega)]
      exact ⟨rfl, rfl⟩
  obtain ⟨hm, hv⟩ := hvm
  obtain ⟨hsrc, hother, hnum⟩ := is_video_src_talker _ 2 hm hv
  exact ⟨hv, hsrc, hother 1 (by decide), hother 3 (by decide), hnum,
    fun b hb => number_video_src_le_one b hb⟩

/-- Witness for C8 at threshold 0 with keyframe flags set. -/
theorem talker_src_video_scenario_witness :
    (talkerScenario 0 true true true).video_mode.talker_src_data.chan_vsrc
      = some 2 ∧
    ast_bridge_is_video_src (talkerScenario 0 true true true) 2 = 1 ∧
    ast_bridge_is_video_src (talkerScenario 0 true true true) 1 = 0 ∧
    ast_bridge_is_video_src (talkerScenario 0 true true true) 3 = 0 ∧
    ast_bridge_number_video_src (talkerScenario 0 true true true) = 1 := by
  have h := talker_src_video_scenario 0 true true true (by decide) (by decide)
  exact ⟨h.1, h.2.1, h.2.2.1, h.2.2.2.1, h.2.2.2.2.1⟩

/-- C3: over every sequence of administrative operations (join, impart,
remove, and the further depart/suspend/unsuspend/dissolve operations) applied
to a bridge satisfying the structural invariant, the bridge keeps
num_active less than or equal to num_channels and its participant list free of
duplicate channel references after each operation. -/
theorem bridge_ops_preserve_counters (can_push : Nat → Bool) (b : AstBridge)
    (ops : List BridgeOp) (h : BridgeInv b) :
    (applyOps can_push b ops).num_active ≤
      (applyOps can_push b ops).num_channels ∧
    ((applyOps can_push b ops).channels.map AstBridgeChannel.chan).Nodup := by
  obtain ⟨h1, h2, h3⟩ := bridgeInv_applyOps can_push b ops h
  refine ⟨?_, h3⟩
  rw [h1, h2]
  exact List.countP_le_length _

/-- Witness for C3: a concrete join/impart/suspend/remove sequence on the
empty bridge. -/
theorem bridge_ops_preserve_counters_witness :
    BridgeInv emptyBridge ∧
    (applyOps (fun _ => true) emptyBridge
        [BridgeOp.join 1, BridgeOp.impart 2 false, BridgeOp.suspend 1,
          BridgeOp.remove 2]).num_active ≤
      (applyOps (fun _ => true) emptyBridge
        [BridgeOp.join 1, BridgeOp.impart 2 false, BridgeOp.suspend 1,
          BridgeOp.remove 2]).num_channels ∧
    ((applyOps (fun _ => true) emptyBridge
        [BridgeOp.join 1, BridgeOp.impart 2 false, BridgeOp.suspend 1,
          BridgeOp.remove 2]).channels.map AstBridgeChannel.chan).Nodup := by
  have h := bridge_ops_preserve_counters (fun _ => true) emptyBridge
    [BridgeOp.join 1, BridgeOp.impart 2 false, BridgeOp.suspend 1,
      BridgeOp.remove 2] (by decide)
  exact ⟨by decide, h.1, h.2⟩

/-- C4: on a bridge whose dissolved flag is set, every join and impart
attempt fails, num_channels is never incremented (the result has at most the
old count), a channel that was already inside is ejected (its record is no
longer found), and the dissolved flag never reverts under any subsequent
sequence of operations. -/
theorem dissolved_bridge_rejects_join (can_push : Nat → Bool) (b : AstBridge)
    (c : Nat) (independent : Bool) (ops : List BridgeOp)
    (hd : b.dissolved = true) :
    (ast_bridge_join can_push b c).1 = -1 ∧
    (ast_bridge_impart can_push b c independent).1 = -1 ∧
    (ast_bridge_join can_push b c).2.num_channels ≤ b.num_channels ∧
    ((b.channels.map AstBridgeChannel.chan).Nodup →
      bridgeFind (ast_bridge_join can_push b c).2 c = none) ∧
    (applyOps can_push b ops).dissolved = true := by
  have hj : ast_bridge_join can_push b c = (-1, eject b c) := by
    simp [ast_bridge_join, bridge_add_channel, hd]
  have hi : ast_bridge_impart can_push b c independent = (-1, eject b c) := by
    simp [ast_bridge_impart, bridge_add_channel, hd]
  refine ⟨by rw [hj], by rw [hi], ?_, ?_, applyOps_dissolved can_push b ops hd⟩
  · rw [hj]
    exact eject_num_channels_le b c
  · intro h3
    rw [hj]
    exact eject_not_member b c h3

/-- Witness for C4: a dissolved bridge still holding channel 9 rejects a
join of channel 9, does not grow, ejects the stale record, and stays
dissolved across a later join attempt. -/
theorem dissolved_bridge_rejects_join_witness :
    (ast_bridge_join (fun _ => true) dissolvedBridge 9).1 = -1 ∧
    (ast_bridge_impart (fun _ => true) dissolvedBridge 9 true).1 = -1 ∧
    (ast_bridge_join (fun _ => true) dissolvedBridge 9).2.num_channels ≤
      dissolvedBridge.num_channels ∧
    bridgeFind (ast_bridge_join (fun _ => true) dissolvedBridge 9).2 9 =
      none ∧
    (applyOps (fun _ => true) dissolvedBridge [BridgeOp.join 3]).dissolved =
      true := by
  have h := dissolved_bridge_rejects_join (fun _ => true) dissolvedBridge 9
    true [BridgeOp.join 3] rfl
  exact ⟨h.1, h.2.1, h.2.2.1, h.2.2.2.1 (by decide), h.2.2.2.2⟩

end Bridging
